import Mathlib

/-
  Verification development for the bitvortex core (src/src/lib.rs,
  src/src/data_bucket.rs).

  Shallow embedding conventions:
  * Rust `Vec<T>` is `List T`; `String` is Lean `String`; `char` is `Char`;
    `bool` is `Bool`; `Option<_>` is `Option _`.
  * The signed integer carriers (i8 .. i128, isize) are `Int` and the
    unsigned ones (u8 .. u128, usize) are `Nat`: no operation of the core
    performs arithmetic on stored elements (they are only stored, cloned
    and returned), so widths and overflow never matter.
  * `f32`/`f64` elements are likewise only stored and returned, never
    inspected; they are carried as their raw bit patterns (`F32`/`F64`
    below), which is faithful for a store/retrieve-only data model.
  * `std::collections::HashMap<String, V>` is modelled extensionally as
    its lookup function `String → Option V` (keys are unique in a
    HashMap, insertion order is irrelevant, and the core only ever uses
    `get`, `contains_key`, `insert` and `remove`, all of which are
    captured exactly by pointwise update of the lookup function).
  * Methods taking `&mut self` are embedded in state-passing style: they
    return the pair (Rust return value, updated receiver). Methods
    returning `&mut` references to a field (`get_mut_data`,
    `get_mut_meta_data`) are embedded as the corresponding field-update
    functions (`set_data`, `set_meta_data`): writing through the returned
    mutable reference is exactly replacing that field.
  * `Source::stream` for `DataBlob` builds `stream::iter(self.data.clone())`:
    a finite stream whose items are the clones of the owned elements in
    order.  `Vec::clone` clones each element; for the supported primitive
    element kinds clone is the identity on values, so the produced item
    sequence is modelled as the owned list itself.
-/

namespace Bitvortex

/-- Rust `f32` element, carried as its raw bit pattern (never inspected by
the core, only stored and cloned). -/
structure F32 where
  bits : Nat
deriving DecidableEq

/-- Rust `f64` element, carried as its raw bit pattern (never inspected by
the core, only stored and cloned). -/
structure F64 where
  bits : Nat
deriving DecidableEq

/-- `LinkType` (src/src/data_bucket.rs): the nature of a relationship
between two DataBlobs. -/
inductive LinkType where
  | OneToOne
  | Handle
  | Reduced
deriving DecidableEq

/-- `Link` (src/src/data_bucket.rs): a directed relationship between two
DataBlobs, by name. -/
structure Link where
  nature : LinkType
  linker : String
  linkee : String
deriving DecidableEq

/-- `MetaData` (src/src/data_bucket.rs): descriptive record for one data
array. -/
structure MetaData where
  name : String
  units : Option String
  description : Option String
  dimensions : List Nat
  unitary_dimensions : List Nat
  links : List Link
deriving DecidableEq

/-- `DataBlob<T>` (src/src/data_bucket.rs): an owned array of `T` together
with its metadata. -/
structure DataBlob (T : Type) where
  data : List T
  meta : MetaData
deriving DecidableEq

/-- `DataBlob::new`: stores the given data and metadata, no validation. -/
def DataBlob.new {T : Type} (new_data : List T) (new_meta : MetaData) : DataBlob T :=
  { data := new_data, meta := new_meta }

/-- `DataBlob::get_data`: immutable access to the owned sequence. -/
def DataBlob.get_data {T : Type} (b : DataBlob T) : List T :=
  b.data

/-- `DataBlob::get_mut_data`, embedded as the write it enables: replacing
the owned sequence. -/
def DataBlob.set_data {T : Type} (b : DataBlob T) (d : List T) : DataBlob T :=
  { b with data := d }

/-- `DataBlob::get_meta_data`: immutable access to the metadata. -/
def DataBlob.get_meta_data {T : Type} (b : DataBlob T) : MetaData :=
  b.meta

/-- `DataBlob::get_mut_meta_data`, embedded as the write it enables:
replacing the metadata. -/
def DataBlob.set_meta_data {T : Type} (b : DataBlob T) (m : MetaData) : DataBlob T :=
  { b with meta := m }

/-- `impl Source<T> for DataBlob<T>`: `stream()` is
`Box::new(stream::iter(self.data.clone()))` — the finite sequence of
clones of the owned elements, in order (clone is the identity on the
supported primitive element values). -/
def DataBlob.stream {T : Type} (b : DataBlob T) : List T :=
  b.data

/-- `DataBucketBlob` (src/src/data_bucket.rs): closed tagged union with
one variant per supported primitive element kind, each wrapping the
`DataBlob` of that kind. -/
inductive DataBucketBlob where
  | Bool (blob : DataBlob Bool)
  | Char (blob : DataBlob Char)
  | Int8 (blob : DataBlob Int)
  | U8 (blob : DataBlob Nat)
  | Int16 (blob : DataBlob Int)
  | U16 (blob : DataBlob Nat)
  | Int32 (blob : DataBlob Int)
  | U32 (blob : DataBlob Nat)
  | Int64 (blob : DataBlob Int)
  | U64 (blob : DataBlob Nat)
  | Int128 (blob : DataBlob Int)
  | U128 (blob : DataBlob Nat)
  | ISize (blob : DataBlob Int)
  | USize (blob : DataBlob Nat)
  | Float32 (blob : DataBlob F32)
  | Float64 (blob : DataBlob F64)
  | Str (blob : DataBlob String)
deriving DecidableEq

/-- `DataBucketBlob::get_meta_data` (macro `meta_data_unwrap!`): match on
the variant and dispatch to the wrapped blob's accessor. -/
def DataBucketBlob.get_meta_data : DataBucketBlob → MetaData
  | .Bool blob => blob.get_meta_data
  | .Char blob => blob.get_meta_data
  | .Int8 blob => blob.get_meta_data
  | .U8 blob => blob.get_meta_data
  | .Int16 blob => blob.get_meta_data
  | .U16 blob => blob.get_meta_data
  | .Int32 blob => blob.get_meta_data
  | .U32 blob => blob.get_meta_data
  | .Int64 blob => blob.get_meta_data
  | .U64 blob => blob.get_meta_data
  | .Int128 blob => blob.get_meta_data
  | .U128 blob => blob.get_meta_data
  | .ISize blob => blob.get_meta_data
  | .USize blob => blob.get_meta_data
  | .Float32 blob => blob.get_meta_data
  | .Float64 blob => blob.get_meta_data
  | .Str blob => blob.get_meta_data

/-- `DataBucketBlob::get_mut_meta_data` (macro `mut_meta_data_unwrap!`),
embedded as the write it enables: replacing the wrapped blob's metadata,
with the same variant dispatch. -/
def DataBucketBlob.set_meta_data : DataBucketBlob → MetaData → DataBucketBlob
  | .Bool blob, m => .Bool (blob.set_meta_data m)
  | .Char blob, m => .Char (blob.set_meta_data m)
  | .Int8 blob, m => .Int8 (blob.set_meta_data m)
  | .U8 blob, m => .U8 (blob.set_meta_data m)
  | .Int16 blob, m => .Int16 (blob.set_meta_data m)
  | .U16 blob, m => .U16 (blob.set_meta_data m)
  | .Int32 blob, m => .Int32 (blob.set_meta_data m)
  | .U32 blob, m => .U32 (blob.set_meta_data m)
  | .Int64 blob, m => .Int64 (blob.set_meta_data m)
  | .U64 blob, m => .U64 (blob.set_meta_data m)
  | .Int128 blob, m => .Int128 (blob.set_meta_data m)
  | .U128 blob, m => .U128 (blob.set_meta_data m)
  | .ISize blob, m => .ISize (blob.set_meta_data m)
  | .USize blob, m => .USize (blob.set_meta_data m)
  | .Float32 blob, m => .Float32 (blob.set_meta_data m)
  | .Float64 blob, m => .Float64 (blob.set_meta_data m)
  | .Str blob, m => .Str (blob.set_meta_data m)

/-- `DataBucket` (src/src/data_bucket.rs): a `HashMap<String, DataBucketBlob>`,
modelled extensionally by its lookup function. -/
structure DataBucket where
  data : String → Option DataBucketBlob

/-- `DataBucket::new`: the empty registry. -/
def DataBucket.new : DataBucket :=
  { data := fun _ => none }

/-- `DataBucket::get_blob`: `self.data.get(blob_name)`. -/
def DataBucket.get_blob (b : DataBucket) (blob_name : String) : Option DataBucketBlob :=
  b.data blob_name

/-- `DataBucket::add_blob` in state-passing style: if the blob's metadata
name is already a key (`contains_key`), return the rejected blob and the
unchanged bucket; otherwise insert under that name and return nothing. -/
def DataBucket.add_blob (b : DataBucket) (new_blob : DataBucketBlob) :
    Option DataBucketBlob × DataBucket :=
  if (b.data new_blob.get_meta_data.name).isSome then
    (some new_blob, b)
  else
    (none,
      { data := fun k =>
          if k = new_blob.get_meta_data.name then some new_blob else b.data k })

/-- `DataBucket::pop_blob` in state-passing style: `self.data.remove(&name)`
returns the entry under `name` (or nothing) and deletes that key. -/
def DataBucket.pop_blob (b : DataBucket) (name : String) :
    Option DataBucketBlob × DataBucket :=
  (b.data name, { data := fun k => if k = name then none else b.data k })

/-- Bucket states reachable from `DataBucket::new()` by any sequence of
`add_blob` and `pop_blob` calls. -/
inductive Reachable : DataBucket → Prop where
  | new : Reachable DataBucket.new
  | add (b : DataBucket) (blob : DataBucketBlob) :
      Reachable b → Reachable (b.add_blob blob).2
  | pop (b : DataBucket) (name : String) :
      Reachable b → Reachable (b.pop_blob name).2

/-- Bucket states reachable from `DataBucket::new()` by `add_blob` and
`pop_blob` calls in which every added blob carries a non-empty metadata
name. -/
inductive ReachableNonEmptyNames : DataBucket → Prop where
  | new : ReachableNonEmptyNames DataBucket.new
  | add (b : DataBucket) (blob : DataBucketBlob) :
      0 < blob.get_meta_data.name.length →
      ReachableNonEmptyNames b → ReachableNonEmptyNames (b.add_blob blob).2
  | pop (b : DataBucket) (name : String) :
      ReachableNonEmptyNames b → ReachableNonEmptyNames (b.pop_blob name).2

/-- Modelled from the spec: the repository declares the `Pipe` trait
(src/src/lib.rs) but contains no type implementing it, so the attachment
state a conforming implementation keeps is modelled from the contract in
spec section 4.5: an optional handle to the attached upstream source.
`Src` stands for the shared upstream handle type. -/
structure PipeState (Src : Type) where
  input : Option Src

/-- Modelled from the spec: `unpipe()` detaches the current upstream, if
any. -/
def PipeState.unpipe {Src : Type} (p : PipeState Src) : PipeState Src :=
  { p with input := none }

/-- Modelled from the spec: `get_input()` returns the currently attached
upstream handle, or nothing if unattached. -/
def PipeState.get_input {Src : Type} (p : PipeState Src) : Option Src :=
  p.input

/- Concrete instances used by witnesses and counterexamples, mirroring
the repository's own tests (metadata name "Test data", the i8 array
0..10). -/

/-- Metadata of the repository's test blob. -/
def testMeta : MetaData :=
  { name := "Test data", units := none, description := none,
    dimensions := [10], unitary_dimensions := [1], links := [] }

/-- The repository's test blob: i8 values 0..10 under name "Test data". -/
def testBlob : DataBucketBlob :=
  .Int8 (DataBlob.new [0, 1, 2, 3, 4, 5, 6, 7, 8, 9] testMeta)

/-- A second blob carrying the same metadata name but a different variant
and data. -/
def otherTestBlob : DataBucketBlob :=
  .Float64 (DataBlob.new [F64.mk 0] testMeta)

/-- The bucket obtained by registering `testBlob` in the empty bucket. -/
def bucketWithTest : DataBucket :=
  (DataBucket.new.add_blob testBlob).2

/-- A blob whose metadata name is the empty string. -/
def emptyNameBlob : DataBucketBlob :=
  .Bool (DataBlob.new []
    { name := "", units := none, description := none,
      dimensions := [], unitary_dimensions := [], links := [] })

/-- Claim C1: when the new blob's metadata name is already registered,
`add_blob` returns the rejected blob back to the caller unchanged, the
registry is left unchanged, the existing entry under that name is
untouched, and nothing is destroyed. -/
theorem add_blob_conflict_rejects (b : DataBucket) (new_blob old : DataBucketBlob)
    (h : b.get_blob new_blob.get_meta_data.name = some old) :
    (b.add_blob new_blob).1 = some new_blob ∧
    (b.add_blob new_blob).2 = b ∧
    (b.add_blob new_blob).2.get_blob new_blob.get_meta_data.name = some old := by
  have hs : (b.data new_blob.get_meta_data.name).isSome = true := by
    simp only [DataBucket.get_blob] at h
    simp [h]
  simp only [DataBucket.add_blob, hs, if_true]
  exact ⟨trivial, trivial, h⟩

/-- Claim C1 witness: rejecting a second blob named "Test data". -/
theorem add_blob_conflict_rejects_witness :
    (bucketWithTest.add_blob otherTestBlob).1 = some otherTestBlob ∧
    (bucketWithTest.add_blob otherTestBlob).2 = bucketWithTest ∧
    (bucketWithTest.add_blob otherTestBlob).2.get_blob
      otherTestBlob.get_meta_data.name = some testBlob :=
  add_blob_conflict_rejects bucketWithTest otherTestBlob testBlob (by decide)

/-- Claim C2: when the new blob's metadata name is not registered,
`add_blob` succeeds (returns nothing) and a subsequent `get_blob` with
that name returns exactly the inserted blob (hence its metadata name and
its variant with the wrapped data are those that were inserted). -/
theorem add_blob_fresh_succeeds (b : DataBucket) (blob : DataBucketBlob)
    (h : b.get_blob blob.get_meta_data.name = none) :
    (b.add_blob blob).1 = none ∧
    (b.add_blob blob).2.get_blob blob.get_meta_data.name = some blob := by
  have hs : (b.data blob.get_meta_data.name).isSome = false := by
    simp only [DataBucket.get_blob] at h
    simp [h]
  simp [DataBucket.add_blob, hs, DataBucket.get_blob]

/-- Claim C2 witness: inserting "Test data" into the empty bucket. -/
theorem add_blob_fresh_succeeds_witness :
    (DataBucket.new.add_blob testBlob).1 = none ∧
    (DataBucket.new.add_blob testBlob).2.get_blob
      testBlob.get_meta_data.name = some testBlob :=
  add_blob_fresh_succeeds DataBucket.new testBlob (by decide)

/-- Claim C3: `pop_blob` returns exactly what `get_blob` saw under that
name (the registered blob unchanged, or nothing when absent); afterwards
both `get_blob` and `pop_blob` for that name find nothing; and popping a
name that was absent leaves the bucket unchanged. -/
theorem pop_blob_spec (b : DataBucket) (name : String) :
    (b.pop_blob name).1 = b.get_blob name ∧
    (b.pop_blob name).2.get_blob name = none ∧
    ((b.pop_blob name).2.pop_blob name).1 = none ∧
    (b.get_blob name = none → (b.pop_blob name).2 = b) := by
  refine ⟨rfl, by simp [DataBucket.pop_blob, DataBucket.get_blob], by
    simp [DataBucket.pop_blob, DataBucket.get_blob], ?_⟩
  intro h
  simp only [DataBucket.get_blob] at h
  cases b with
  | mk f =>
    simp only [DataBucket.pop_blob]
    congr 1
    funext k
    by_cases hk : k = name
    · subst hk
      simpa using h.symm
    · simp [hk]

/-- Claim C3 witness: popping from the empty bucket. -/
theorem pop_blob_spec_witness :
    (DataBucket.new.pop_blob "Test data").1 = DataBucket.new.get_blob "Test data" ∧
    (DataBucket.new.pop_blob "Test data").2.get_blob "Test data" = none ∧
    ((DataBucket.new.pop_blob "Test data").2.pop_blob "Test data").1 = none ∧
    (DataBucket.new.pop_blob "Test data").2 = DataBucket.new :=
  ⟨(pop_blob_spec DataBucket.new "Test data").1,
   (pop_blob_spec DataBucket.new "Test data").2.1,
   (pop_blob_spec DataBucket.new "Test data").2.2.1,
   (pop_blob_spec DataBucket.new "Test data").2.2.2 (by decide)⟩

/-- Claim C4: in every bucket reachable from `DataBucket::new()` by
`add_blob` and `pop_blob` calls, every key present in the map denotes a
blob whose metadata name equals that key. -/
theorem bucket_key_invariant (b : DataBucket) (hb : Reachable b) :
    ∀ (k : String) (blob : DataBucketBlob),
      b.get_blob k = some blob → blob.get_meta_data.name = k := by
  induction hb with
  | new =>
    intro k blob h
    simp [DataBucket.new, DataBucket.get_blob] at h
  | add b0 nb _ ih =>
    intro k blob h
    by_cases hc : (b0.data nb.get_meta_data.name).isSome
    · simp only [DataBucket.add_blob, hc, if_true] at h
      exact ih k blob h
    · simp only [DataBucket.add_blob, hc, if_false, Bool.false_eq_true,
        DataBucket.get_blob] at h
      by_cases hk : k = nb.get_meta_data.name
      · rw [if_pos hk] at h
        cases h
        exact hk.symm
      · rw [if_neg hk] at h
        exact ih k blob h
  | pop b0 name _ ih =>
    intro k blob h
    simp only [DataBucket.pop_blob, DataBucket.get_blob] at h
    by_cases hk : k = name
    · rw [if_pos hk] at h
      cases h
    · rw [if_neg hk] at h
      exact ih k blob h

/-- Claim C4 witness: the invariant evaluated in the bucket holding the
test blob under key "Test data". -/
theorem bucket_key_invariant_witness :
    testBlob.get_meta_data.name = "Test data" :=
  bucket_key_invariant bucketWithTest
    (Reachable.add DataBucket.new testBlob Reachable.new)
    "Test data" testBlob (by decide)

/-- Claim C5: `DataBlob::new` performs no validation (it accepts any
metadata, whatever its `dimensions` or `unitary_dimensions`, for any data
sequence) and the accessors return exactly the sequence and the metadata
given at construction, in order. -/
theorem data_blob_new_roundtrip (T : Type) (d : List T) (m : MetaData) :
    (DataBlob.new d m).get_data = d ∧ (DataBlob.new d m).get_meta_data = m :=
  ⟨rfl, rfl⟩

/-- Claim C6: `stream()` produces the sequence of copies of the owned
elements, equal to the owned sequence element for element and in order;
it is a snapshot: after the owned data is replaced (a write through
`get_mut_data`), the later snapshot is the new data, while the stream
taken from the unmutated blob still equals its data. Two calls with no
mutation in between denote the same pure value. -/
theorem stream_snapshot (T : Type) (b : DataBlob T) (d : List T) :
    b.stream = b.get_data ∧ (b.set_data d).stream = d :=
  ⟨rfl, rfl⟩

/-- Claim C7: every core operation is a total function and every
failure-prone operation has an explicit outcome: `get_blob`/`pop_blob`
either find nothing or return the registered blob, `add_blob` either
inserts (returning nothing) or rejects by giving the blob back with the
bucket unchanged, the metadata accessors are defined on all seventeen
variants, and constructor/accessors/`stream` of `DataBlob` are defined on
every input. -/
theorem core_operations_total (b : DataBucket) (name : String)
    (nb bl : DataBucketBlob) (m : MetaData) (T : Type) (d : List T)
    (dm : MetaData) (db : DataBlob T) :
    ((b.get_blob name = none ∧ (b.pop_blob name).1 = none) ∨
      ∃ x, b.get_blob name = some x ∧ (b.pop_blob name).1 = some x) ∧
    ((b.add_blob nb).1 = none ∨
      ((b.add_blob nb).1 = some nb ∧ (b.add_blob nb).2 = b)) ∧
    (bl.set_meta_data m).get_meta_data = m ∧
    (DataBlob.new d dm).get_data = d ∧
    (DataBlob.new d dm).get_meta_data = dm ∧
    db.stream = db.get_data := by
  refine ⟨?_, ?_, ?_, rfl, rfl, rfl⟩
  · cases h : b.data name with
    | none => exact Or.inl ⟨h, by simp [DataBucket.pop_blob, h]⟩
    | some x => exact Or.inr ⟨x, h, by simp [DataBucket.pop_blob, h]⟩
  · by_cases hc : (b.data nb.get_meta_data.name).isSome
    · exact Or.inr (by simp [DataBucket.add_blob, hc])
    · exact Or.inl (by simp [DataBucket.add_blob, hc])
  · cases bl <;> rfl

/-- Claim C8 counterexample: `add_blob` performs no name validation, so a
blob whose metadata name is the empty string is accepted by the empty
bucket (the call returns nothing, i.e. success) and registered under the
empty key — refuting the claim that every blob accepted by `add_blob` has
a non-empty metadata name. -/
theorem add_blob_accepts_empty_name :
    (DataBucket.new.add_blob emptyNameBlob).1 = none ∧
    (DataBucket.new.add_blob emptyNameBlob).2.get_blob "" = some emptyNameBlob ∧
    emptyNameBlob.get_meta_data.name = "" := by
  decide

/-- Claim C8 (amended): `add_blob` does not enforce name non-emptiness;
the invariant holds conditionally: in every bucket reachable from
`DataBucket::new()` by `add_blob` and `pop_blob` calls in which every
added blob carries a non-empty metadata name, every blob held in the
bucket has a non-empty metadata name. -/
theorem bucket_names_nonempty_conditional (b : DataBucket)
    (hb : ReachableNonEmptyNames b) :
    ∀ (k : String) (blob : DataBucketBlob),
      b.get_blob k = some blob → 0 < blob.get_meta_data.name.length := by
  induction hb with
  | new =>
    intro k blob h
    simp [DataBucket.new, DataBucket.get_blob] at h
  | add b0 nb hne _ ih =>
    intro k blob h
    by_cases hc : (b0.data nb.get_meta_data.name).isSome
    · simp only [DataBucket.add_blob, hc, if_true] at h
      exact ih k blob h
    · simp only [DataBucket.add_blob, hc, if_false, Bool.false_eq_true,
        DataBucket.get_blob] at h
      by_cases hk : k = nb.get_meta_data.name
      · rw [if_pos hk] at h
        cases h
        exact hne
      · rw [if_neg hk] at h
        exact ih k blob h
  | pop b0 name _ ih =>
    intro k blob h
    simp only [DataBucket.pop_blob, DataBucket.get_blob] at h
    by_cases hk : k = name
    · rw [if_pos hk] at h
      cases h
    · rw [if_neg hk] at h
      exact ih k blob h

/-- Claim C8 (amended) witness: evaluated in the bucket holding the test
blob, whose name "Test data" is non-empty. -/
theorem bucket_names_nonempty_conditional_witness :
    0 < testBlob.get_meta_data.name.length :=
  bucket_names_nonempty_conditional bucketWithTest
    (ReachableNonEmptyNames.add DataBucket.new testBlob (by decide)
      ReachableNonEmptyNames.new)
    "Test data" testBlob (by decide)

/-- Claim C9: detaching a pipe with no attached upstream is a no-op (the
state is unchanged) and leaves `get_input()` returning nothing. -/
theorem unpipe_unattached_noop (Src : Type) (p : PipeState Src)
    (h : p.get_input = none) :
    p.unpipe = p ∧ p.unpipe.get_input = none := by
  refine ⟨?_, rfl⟩
  cases p with
  | mk i =>
    simp only [PipeState.get_input] at h
    simp [PipeState.unpipe, h]

/-- Claim C9 witness: the unattached pipe state over a natural-number
handle type. -/
theorem unpipe_unattached_noop_witness :
    PipeState.unpipe ({ input := none } : PipeState Nat) = { input := none } ∧
    (PipeState.unpipe ({ input := none } : PipeState Nat)).get_input = none :=
  unpipe_unattached_noop Nat { input := none } rfl

/-- Claim C10: `stream()` depends only on the owned data, never on the
metadata: two blobs with equal data sequences produce equal streams,
whatever their metadata. -/
theorem stream_ignores_metadata (T : Type) (b1 b2 : DataBlob T)
    (h : b1.get_data = b2.get_data) :
    b1.stream = b2.stream :=
  h

/-- Claim C10 witness: two blobs with the same data but entirely
different metadata stream identically. -/
theorem stream_ignores_metadata_witness :
    (DataBlob.new [1, 2, 3] testMeta).stream =
      (DataBlob.new ([1, 2, 3] : List Int)
        { name := "Other", units := some "m", description := some "d",
          dimensions := [3], unitary_dimensions := [1],
          links := [Link.mk LinkType.OneToOne "Other" "Test data"] }).stream :=
  stream_ignores_metadata Int
    (DataBlob.new [1, 2, 3] testMeta)
    (DataBlob.new [1, 2, 3]
      { name := "Other", units := some "m", description := some "d",
        dimensions := [3], unitary_dimensions := [1],
        links := [Link.mk LinkType.OneToOne "Other" "Test data"] })
    rfl

end Bitvortex

